import Mathlib

/-!
Shallow embedding of the Events API handler module (`src/main.py`), a
FastAPI CRUD service over a single DynamoDB table keyed by `eventId`.

Modelling conventions:
* The DynamoDB table is a key-value store; it is embedded as a
  `List EventRecord` together with a health flag. `tableMissing` models the
  backing table not existing (boto3 raises `ResourceNotFoundException` on
  the first table call); `otherFailure msg` models any other exception
  raised by a store call, carrying the exception text `str(e)`.
* Each HTTP handler becomes a function from the store state (plus its
  parameters) to `Except HTTPError result`, with mutating handlers also
  returning the new store state.  `HTTPException(status_code, detail)`
  becomes `HTTPError`.
* Pydantic runs before the handler body: handlers receive an already
  parsed `Event` / `EventUpdate`.  The pydantic field constraints are
  captured by the `Valid` predicates below and appear as hypotheses where
  a claim speaks of "valid" payloads.
* `str(uuid.uuid4())` is nondeterministic, so the fresh id is passed to
  `create_event` as an explicit argument `freshId`.
-/

set_option autoImplicit false

namespace EventsApi

/-- Models Python string truthiness/whitespace checks: the characters
`str.strip()` removes (space, tab, newline, carriage return, vertical tab,
form feed). -/
def pyIsSpace (c : Char) : Bool :=
  c = ' ' || c = '\t' || c = '\n' || c = '\r' || c = '\x0b' || c = '\x0c'

/-- `not event_id or not event_id.strip()` from the handlers: true exactly
when the id is empty or consists only of whitespace characters. -/
def eventIdInvalid (s : String) : Bool :=
  s = "" || s.toList.all pyIsSpace

/-- ASCII case folding of one character. -/
def pyLowerChar (c : Char) : Char :=
  if 'A' ≤ c && c ≤ 'Z' then Char.ofNat (c.toNat + 32) else c

/-- Model of Python `str.lower()` (ASCII case folding, which is all the
repository's data uses). -/
def pyLower (s : String) : String :=
  String.mk (s.data.map pyLowerChar)

/-- `startsWithChars hay needle`: `needle` is an initial segment of `hay`
(character lists). -/
def startsWithChars : List Char → List Char → Bool
  | _, [] => true
  | [], _ :: _ => false
  | a :: as, b :: bs => a = b && startsWithChars as bs

/-- `containsChars needle hay`: `needle` occurs as a contiguous
subsequence of `hay`.  Models Python's `needle in hay` on strings. -/
def containsChars (needle : List Char) : List Char → Bool
  | [] => startsWithChars [] needle
  | a :: t => startsWithChars (a :: t) needle || containsChars needle t

/-- Python `needle in hay` for strings. -/
def pyIn (needle hay : String) : Bool :=
  containsChars needle.toList hay.toList

/-- `class EventStatus(str, Enum)` from `src/main.py`. -/
inductive EventStatus where
  | draft
  | published
  | active
  | cancelled
  | completed
deriving DecidableEq

/-- The `.value` of each `EventStatus` member (its underlying string). -/
def EventStatus.value : EventStatus → String
  | .draft => "draft"
  | .published => "published"
  | .active => "active"
  | .cancelled => "cancelled"
  | .completed => "completed"

/-- The `Event` pydantic model: the request payload of `POST /events`.
`eventId` is `Optional[str]`; all other fields are required.  `capacity`
is a Python `int`, embedded as `Int`. -/
structure Event where
  eventId : Option String
  title : String
  description : String
  date : String
  location : String
  capacity : Int
  organizer : String
  status : EventStatus
deriving DecidableEq

/-- Days in a month of the (proleptic Gregorian) calendar. -/
def daysInMonth (y m : Nat) : Nat :=
  if m = 2 then
    if (y % 4 = 0 && y % 100 ≠ 0) || y % 400 = 0 then 29 else 28
  else if m = 4 || m = 6 || m = 9 || m = 11 then 30 else 31

/-- Numeric value of a decimal digit character. -/
def digitVal (c : Char) : Nat :=
  c.toNat - '0'.toNat

/-- Models the acceptance of Python's `datetime.fromisoformat` restricted
to its `YYYY-MM-DD` calendar-date core (`fromisoformat` also accepts
datetime forms; only satisfiability of the date constraint matters here,
since no handler branches on the shape of an accepted date). -/
def isoDateOk (s : String) : Bool :=
  match s.toList with
  | [y1, y2, y3, y4, c1, m1, m2, c2, d1, d2] =>
    c1 = '-' && c2 = '-' &&
    y1.isDigit && y2.isDigit && y3.isDigit && y4.isDigit &&
    m1.isDigit && m2.isDigit && d1.isDigit && d2.isDigit &&
    (let y := ((digitVal y1 * 10 + digitVal y2) * 10 + digitVal y3) * 10 + digitVal y4
     let m := digitVal m1 * 10 + digitVal m2
     let d := digitVal d1 * 10 + digitVal d2
     1 ≤ m && m ≤ 12 && 1 ≤ d && d ≤ daysInMonth y m)
  | _ => false

/-- The pydantic `Field` constraints on `Event` (lengths in characters,
matching Python `len` on `str`), plus the `date` validator. -/
def Event.Valid (e : Event) : Prop :=
  1 ≤ e.title.length ∧ e.title.length ≤ 200 ∧
  1 ≤ e.description.length ∧ e.description.length ≤ 2000 ∧
  isoDateOk e.date = true ∧
  1 ≤ e.location.length ∧ e.location.length ≤ 500 ∧
  0 < e.capacity ∧ e.capacity ≤ 100000 ∧
  1 ≤ e.organizer.length ∧ e.organizer.length ≤ 200

instance (e : Event) : Decidable e.Valid := by
  unfold Event.Valid
  infer_instance

/-- The `EventUpdate` pydantic model: every field optional.  `some v`
embeds a field that the client supplied with value `v`; `none` embeds an
unset field (`model_dump(exclude_unset=True)` drops it). -/
structure EventUpdate where
  title : Option String
  description : Option String
  date : Option String
  location : Option String
  capacity : Option Int
  organizer : Option String
  status : Option EventStatus
deriving DecidableEq

/-- The `updates` dict of `update_event` is non-empty: at least one field
was supplied. -/
def EventUpdate.hasFields (u : EventUpdate) : Bool :=
  u.title.isSome || u.description.isSome || u.date.isSome ||
  u.location.isSome || u.capacity.isSome || u.organizer.isSome ||
  u.status.isSome

/-- The pydantic `Field` constraints on `EventUpdate`: each supplied field
obeys the same bounds as on create. -/
def EventUpdate.Valid (u : EventUpdate) : Prop :=
  (∀ t ∈ u.title, 1 ≤ t.length ∧ t.length ≤ 200) ∧
  (∀ d ∈ u.description, 1 ≤ d.length ∧ d.length ≤ 2000) ∧
  (∀ d ∈ u.date, isoDateOk d = true) ∧
  (∀ l ∈ u.location, 1 ≤ l.length ∧ l.length ≤ 500) ∧
  (∀ c ∈ u.capacity, 0 < c ∧ c ≤ 100000) ∧
  (∀ o ∈ u.organizer, 1 ≤ o.length ∧ o.length ≤ 200)

instance (u : EventUpdate) : Decidable u.Valid := by
  unfold EventUpdate.Valid
  infer_instance

/-- A stored table item.  Items written by this service always carry all
eight attributes, with `status` already serialized to its underlying
string (`event.status.value`). -/
structure EventRecord where
  eventId : String
  title : String
  description : String
  date : String
  location : String
  capacity : Int
  organizer : String
  status : String
deriving DecidableEq

/-- Health of the backing DynamoDB table, observed at each store call. -/
inductive StoreHealth where
  | healthy
  | tableMissing
  | otherFailure (msg : String)
deriving DecidableEq

/-- The backing store: health flag plus table contents. -/
structure Store where
  health : StoreHealth
  items : List EventRecord
deriving DecidableEq

/-- `table.get_item(Key={'eventId': key})`: point lookup by primary key. -/
def tableGet (items : List EventRecord) (key : String) : Option EventRecord :=
  items.find? (fun r => r.eventId = key)

/-- `table.put_item(Item=item)`: write the full item, replacing any item
with the same key. -/
def tablePut (items : List EventRecord) (item : EventRecord) : List EventRecord :=
  items.filter (fun r => r.eventId ≠ item.eventId) ++ [item]

/-- `table.delete_item(Key={'eventId': key})`: remove the item with the
key, if any. -/
def tableDelete (items : List EventRecord) (key : String) : List EventRecord :=
  items.filter (fun r => r.eventId ≠ key)

/-- The semantic effect of the `SET` update expression that `update_event`
builds: each supplied field overwrites the stored attribute, every other
attribute is left untouched; an enum-typed `status` is written as its
`.value` string. -/
def applyUpdate (r : EventRecord) (u : EventUpdate) : EventRecord :=
  { r with
    title := u.title.getD r.title
    description := u.description.getD r.description
    date := u.date.getD r.date
    location := u.location.getD r.location
    capacity := u.capacity.getD r.capacity
    organizer := u.organizer.getD r.organizer
    status := (u.status.map EventStatus.value).getD r.status }

/-- `table.update_item(Key=..., UpdateExpression="SET ...",
ReturnValues="ALL_NEW")`: update the stored item with that key in place.
(`update_event` only calls this after a successful existence read.) -/
def tableUpdateItem (items : List EventRecord) (key : String) (u : EventUpdate) :
    List EventRecord :=
  items.map (fun r => if r.eventId = key then applyUpdate r u else r)

/-- `HTTPException(status_code=..., detail=...)`. -/
structure HTTPError where
  status : Nat
  detail : String
deriving DecidableEq

/-- `table_name = os.getenv('DYNAMODB_TABLE', 'events')` (default). -/
def table_name : String := "events"

/-- Detail string of every 503: `f"DynamoDB table '{table_name}' not found"`. -/
def tableMissingDetail : String :=
  "DynamoDB table " ++ "'" ++ table_name ++ "'" ++ " not found"

/-- Detail string of the 404s: `f"Event with ID '{event_id}' not found"`. -/
def notFoundDetail (event_id : String) : String :=
  "Event with ID " ++ "'" ++ event_id ++ "'" ++ " not found"

/-- The id `create_event` resolves:
`event.eventId if event.eventId else str(uuid.uuid4())` — Python
truthiness, so both an absent and an empty-string `eventId` fall back to
the fresh UUID. -/
def resolvedId (freshId : String) (e : Event) : String :=
  match e.eventId with
  | some s => if s = "" then freshId else s
  | none => freshId

/-- The full item `create_event` assembles before `put_item`. -/
def mkItem (freshId : String) (e : Event) : EventRecord :=
  { eventId := resolvedId freshId e
    title := e.title
    description := e.description
    date := e.date
    location := e.location
    capacity := e.capacity
    organizer := e.organizer
    status := e.status.value }

/-- `POST /events` — `create_event` from `src/main.py`. -/
def create_event (st : Store) (freshId : String) (event : Event) :
    Except HTTPError (EventRecord × Store) :=
  let item := mkItem freshId event
  match st.health with
  | .healthy => .ok (item, { st with items := tablePut st.items item })
  | .tableMissing => .error ⟨503, tableMissingDetail⟩
  | .otherFailure msg => .error ⟨500, "Failed to create event: " ++ msg⟩

/-- One in-memory filter step of `list_events`: `if f:` (Python
truthiness) guards each filter, so `None` and `""` both skip it. -/
def applyFilter (f : Option String) (p : String → EventRecord → Bool)
    (events : List EventRecord) : List EventRecord :=
  match f with
  | some s => if s = "" then events else events.filter (p s)
  | none => events

/-- The status filter body: `e.get('status', '').lower() == status.lower()`. -/
def statusMatch (s : String) (e : EventRecord) : Bool :=
  pyLower e.status = pyLower s

/-- The location filter body:
`location.lower() in e.get('location', '').lower()`. -/
def locationMatch (s : String) (e : EventRecord) : Bool :=
  pyIn (pyLower s) (pyLower e.location)

/-- The organizer filter body:
`organizer.lower() in e.get('organizer', '').lower()`. -/
def organizerMatch (s : String) (e : EventRecord) : Bool :=
  pyIn (pyLower s) (pyLower e.organizer)

/-- `GET /events` — `list_events` from `src/main.py`: full scan, then the
three in-memory filters in order, then `{"events": ..., "count": len}`. -/
def list_events (st : Store)
    (status location organizer : Option String) :
    Except HTTPError (List EventRecord × Nat) :=
  match st.health with
  | .healthy =>
    let events := st.items
    let events := applyFilter status statusMatch events
    let events := applyFilter location locationMatch events
    let events := applyFilter organizer organizerMatch events
    .ok (events, events.length)
  | .tableMissing => .error ⟨503, tableMissingDetail⟩
  | .otherFailure msg => .error ⟨500, "Failed to list events: " ++ msg⟩

/-- `GET /events/{event_id}` — `get_event` from `src/main.py`. -/
def get_event (st : Store) (event_id : String) : Except HTTPError EventRecord :=
  if eventIdInvalid event_id then .error ⟨400, "Event ID is required"⟩
  else
    match st.health with
    | .healthy =>
      match tableGet st.items event_id with
      | none => .error ⟨404, notFoundDetail event_id⟩
      | some r => .ok r
    | .tableMissing => .error ⟨503, tableMissingDetail⟩
    | .otherFailure msg => .error ⟨500, "Failed to retrieve event: " ++ msg⟩

/-- `PUT /events/{event_id}` — `update_event` from `src/main.py`.  Note
the order in the source: the id check first, then the existence read
(`get_item`, which is where a missing table or store failure surfaces),
then the `if not updates` check, then `update_item`. -/
def update_event (st : Store) (event_id : String) (event : EventUpdate) :
    Except HTTPError (EventRecord × Store) :=
  if eventIdInvalid event_id then .error ⟨400, "Event ID is required"⟩
  else
    match st.health with
    | .healthy =>
      match tableGet st.items event_id with
      | none => .error ⟨404, notFoundDetail event_id⟩
      | some r =>
        if event.hasFields then
          .ok (applyUpdate r event,
               { st with items := tableUpdateItem st.items event_id event })
        else .error ⟨400, "No fields to update"⟩
    | .tableMissing => .error ⟨503, tableMissingDetail⟩
    | .otherFailure msg => .error ⟨500, "Failed to update event: " ++ msg⟩

/-- The success payload of `DELETE /events/{event_id}`. -/
structure DeleteResult where
  message : String
  eventId : String
deriving DecidableEq

/-- `DELETE /events/{event_id}` — `delete_event` from `src/main.py`. -/
def delete_event (st : Store) (event_id : String) :
    Except HTTPError (DeleteResult × Store) :=
  if eventIdInvalid event_id then .error ⟨400, "Event ID is required"⟩
  else
    match st.health with
    | .healthy =>
      match tableGet st.items event_id with
      | none => .error ⟨404, notFoundDetail event_id⟩
      | some _ =>
        .ok (⟨"Event deleted successfully", event_id⟩,
             { st with items := tableDelete st.items event_id })
    | .tableMissing => .error ⟨503, tableMissingDetail⟩
    | .otherFailure msg => .error ⟨500, "Failed to delete event: " ++ msg⟩

/-! ### Helper lemmas about the table model -/

theorem applyUpdate_eventId (r : EventRecord) (u : EventUpdate) :
    (applyUpdate r u).eventId = r.eventId := rfl

theorem tableGet_tablePut (items : List EventRecord) (item : EventRecord) :
    tableGet (tablePut items item) item.eventId = some item := by
  have h1 : (items.filter (fun r => r.eventId ≠ item.eventId)).find?
      (fun r => r.eventId = item.eventId) = none := by
    rw [List.find?_eq_none]
    intro x hx
    rw [List.mem_filter] at hx
    simpa using hx.2
  simp [tableGet, tablePut, List.find?_append, h1]

theorem tableGet_tableDelete (items : List EventRecord) (key : String) :
    tableGet (tableDelete items key) key = none := by
  rw [tableGet, tableDelete, List.find?_eq_none]
  intro x hx
  rw [List.mem_filter] at hx
  simpa using hx.2

theorem tablePut_filter_self (items : List EventRecord) (item : EventRecord) :
    (tablePut items item).filter (fun r => r.eventId = item.eventId) = [item] := by
  rw [tablePut, List.filter_append]
  have h1 : (items.filter (fun r => r.eventId ≠ item.eventId)).filter
      (fun r => r.eventId = item.eventId) = [] := by
    rw [List.filter_filter, List.filter_eq_nil_iff]
    intro a _
    simp
  simp [h1]

theorem tableGet_tableUpdateItem (items : List EventRecord) (key : String)
    (u : EventUpdate) (r : EventRecord) (h : tableGet items key = some r) :
    tableGet (tableUpdateItem items key u) key = some (applyUpdate r u) := by
  induction items with
  | nil => simp [tableGet] at h
  | cons a t ih =>
    by_cases hk : a.eventId = key
    · have ha : a = r := by
        unfold tableGet at h
        rw [List.find?_cons_of_pos _ (by simpa using hk)] at h
        exact Option.some.inj h
      subst ha
      unfold tableGet tableUpdateItem
      rw [List.map_cons, if_pos hk]
      exact List.find?_cons_of_pos _ (by simpa [applyUpdate] using hk)
    · unfold tableGet at h
      rw [List.find?_cons_of_neg _ (by simpa using hk)] at h
      have ih2 := ih h
      unfold tableGet tableUpdateItem at ih2 ⊢
      rw [List.map_cons, if_neg hk]
      rw [List.find?_cons_of_neg _ (by simpa using hk)]
      exact ih2

/-! ### Shared concrete fixtures (used by witnesses and counterexamples) -/

/-- The scenario payload of §8 of the specification. -/
def baseEvent : Event :=
  { eventId := none
    title := "Meetup"
    description := "desc"
    date := "2025-01-01"
    location := "NYC"
    capacity := 50
    organizer := "Alice"
    status := .draft }

/-- The same payload carrying an explicit whitespace-only `eventId`. -/
def wsEvent : Event := { baseEvent with eventId := some " " }

/-- The stored record of `wsEvent` (id `" "`). -/
def wsRecord : EventRecord :=
  { eventId := " "
    title := "Meetup"
    description := "desc"
    date := "2025-01-01"
    location := "NYC"
    capacity := 50
    organizer := "Alice"
    status := "draft" }

/-- A healthy, empty store. -/
def emptyStore : Store := { health := .healthy, items := [] }

/-- An update supplying only a new title. -/
def titleUpdate : EventUpdate :=
  { title := some "New title"
    description := none
    date := none
    location := none
    capacity := none
    organizer := none
    status := none }

/-- An update supplying no fields at all. -/
def emptyUpdate : EventUpdate :=
  { title := none
    description := none
    date := none
    location := none
    capacity := none
    organizer := none
    status := none }

/-- The store after creating `wsEvent` in `emptyStore`. -/
def wsStore : Store := { health := .healthy, items := [wsRecord] }

/-- A record stored under the ordinary id `"e1"`. -/
def baseRecord : EventRecord :=
  { eventId := "e1"
    title := "Meetup"
    description := "desc"
    date := "2025-01-01"
    location := "NYC"
    capacity := 50
    organizer := "Alice"
    status := "draft" }

/-- A healthy store holding exactly `baseRecord`. -/
def baseStore : Store := { health := .healthy, items := [baseRecord] }

/-! ### C1 — round-trip `Get(Create(e).id) = Create(e)` -/

/-- Counterexample to C1 as stated: the payload `wsEvent` is valid and
carries the whitespace-only id `" "`; `create_event` succeeds and stores
the record under `" "`, but `get_event` on the returned id answers
`400 InvalidInput`, not the created record. -/
theorem C1_counterexample :
    wsEvent.Valid ∧
    create_event emptyStore "id-1" wsEvent = .ok (wsRecord, wsStore) ∧
    get_event wsStore wsRecord.eventId = .error ⟨400, "Event ID is required"⟩ :=
  ⟨by decide, rfl, rfl⟩

/-- C1 (amended): for every valid payload `e`, provided the resolved id
(the supplied `eventId`, or the fresh UUID when that is absent or empty)
is not empty or whitespace-only — which every generated UUID satisfies —
creating `e` and then getting the resolved id returns exactly the record
that `create_event` returned. -/
theorem C1_get_after_create (st : Store) (freshId : String) (e : Event)
    (hv : e.Valid) (hh : st.health = .healthy)
    (hid : eventIdInvalid (resolvedId freshId e) = false) :
    ∃ r st', create_event st freshId e = .ok (r, st') ∧
      get_event st' r.eventId = .ok r := by
  have hid2 : eventIdInvalid (mkItem freshId e).eventId = false := hid
  refine ⟨mkItem freshId e,
    { st with items := tablePut st.items (mkItem freshId e) }, ?_, ?_⟩
  · unfold create_event
    rw [hh]
  · simp [get_event, hid2, tableGet_tablePut, hh]

/-- Witness for C1 at the §8 scenario payload (no supplied id). -/
theorem C1_witness :
    baseEvent.Valid ∧
    eventIdInvalid (resolvedId "id-1" baseEvent) = false ∧
    (∃ r st', create_event emptyStore "id-1" baseEvent = .ok (r, st') ∧
      get_event st' r.eventId = .ok r) :=
  ⟨by decide, by decide,
    C1_get_after_create emptyStore "id-1" baseEvent (by decide) rfl (by decide)⟩

/-! ### C2 — update merge law (frame) -/

/-- The frame property the specification states for a partial update:
each supplied field of `u` takes its new value in `new` (the `status`
enum serialized to its underlying string), and every unsupplied field of
`new` equals its value in `old`; the id never changes. -/
def UpdateFrame (old new : EventRecord) (u : EventUpdate) : Prop :=
  new.eventId = old.eventId ∧
  (∀ v, u.title = some v → new.title = v) ∧
  (u.title = none → new.title = old.title) ∧
  (∀ v, u.description = some v → new.description = v) ∧
  (u.description = none → new.description = old.description) ∧
  (∀ v, u.date = some v → new.date = v) ∧
  (u.date = none → new.date = old.date) ∧
  (∀ v, u.location = some v → new.location = v) ∧
  (u.location = none → new.location = old.location) ∧
  (∀ v, u.capacity = some v → new.capacity = v) ∧
  (u.capacity = none → new.capacity = old.capacity) ∧
  (∀ v, u.organizer = some v → new.organizer = v) ∧
  (u.organizer = none → new.organizer = old.organizer) ∧
  (∀ v, u.status = some v → new.status = v.value) ∧
  (u.status = none → new.status = old.status)

theorem applyUpdate_frame (r : EventRecord) (u : EventUpdate) :
    UpdateFrame r (applyUpdate r u) u := by
  unfold UpdateFrame
  repeat' apply And.intro
  all_goals intros
  all_goals simp_all [applyUpdate]

/-- Counterexample to C2 as stated: `wsRecord` is an existing record with
the (whitespace-only) id `" "`, and `titleUpdate` is a non-empty set of
valid supplied fields, yet `update_event` rejects the call with
`400 InvalidInput` instead of merging the supplied field. -/
theorem C2_counterexample :
    tableGet wsStore.items " " = some wsRecord ∧
    titleUpdate.hasFields = true ∧ titleUpdate.Valid ∧
    update_event wsStore " " titleUpdate = .error ⟨400, "Event ID is required"⟩ :=
  ⟨by decide, by decide, by decide, rfl⟩

/-- C2 (amended): for every existing record whose id is not empty or
whitespace-only and every non-empty set of valid supplied fields,
`update_event` returns the full post-merge record, stores it under the
same id, and the merge changes exactly the supplied fields
(`UpdateFrame`). -/
theorem C2_update_merge_law (st : Store) (id : String) (u : EventUpdate)
    (r : EventRecord) (hh : st.health = .healthy)
    (hid : eventIdInvalid id = false)
    (hex : tableGet st.items id = some r)
    (hnf : u.hasFields = true) (hv : u.Valid) :
    ∃ st', update_event st id u = .ok (applyUpdate r u, st') ∧
      tableGet st'.items id = some (applyUpdate r u) ∧
      UpdateFrame r (applyUpdate r u) u := by
  refine ⟨{ st with items := tableUpdateItem st.items id u }, ?_, ?_, ?_⟩
  · unfold update_event
    rw [hh]
    simp [hid, hex, hnf]
  · exact tableGet_tableUpdateItem st.items id u r hex
  · exact applyUpdate_frame r u

/-- Witness for C2: updating the title of `baseRecord` in `baseStore`. -/
theorem C2_witness :
    eventIdInvalid "e1" = false ∧
    tableGet baseStore.items "e1" = some baseRecord ∧
    titleUpdate.hasFields = true ∧ titleUpdate.Valid ∧
    (∃ st', update_event baseStore "e1" titleUpdate =
        .ok (applyUpdate baseRecord titleUpdate, st') ∧
      tableGet st'.items "e1" = some (applyUpdate baseRecord titleUpdate) ∧
      UpdateFrame baseRecord (applyUpdate baseRecord titleUpdate) titleUpdate) :=
  ⟨by decide, by decide, by decide, by decide,
    C2_update_merge_law baseStore "e1" titleUpdate baseRecord rfl
      (by decide) (by decide) (by decide) (by decide)⟩

/-! ### C3 — empty `partialFields` rejected before any store call -/

/-- Counterexample to C3 as stated: with no supplied fields,
`update_event` on a missing id answers `404 NotFound`, and against a
missing table answers `503 StoreUnavailable` — not `400 InvalidInput` —
because the source performs the existence read before the
no-fields-to-update check. -/
theorem C3_counterexample :
    emptyUpdate.hasFields = false ∧
    update_event emptyStore "missing" emptyUpdate =
      .error ⟨404, notFoundDetail "missing"⟩ ∧
    update_event { health := .tableMissing, items := [] } "abc" emptyUpdate =
      .error ⟨503, tableMissingDetail⟩ :=
  ⟨by decide, rfl, rfl⟩

/-- C3 (amended): an empty `partialFields` is rejected with
`400 "No fields to update"` only after the id check and the existence
read: on an existing record it yields `InvalidInput`, but on a missing id
it yields `NotFound`, and while the table is missing it yields
`StoreUnavailable`. -/
theorem C3_empty_update_order (st : Store) (id : String) (u : EventUpdate)
    (hid : eventIdInvalid id = false) (hnf : u.hasFields = false) :
    (st.health = .tableMissing →
      update_event st id u = .error ⟨503, tableMissingDetail⟩) ∧
    (st.health = .healthy → tableGet st.items id = none →
      update_event st id u = .error ⟨404, notFoundDetail id⟩) ∧
    (st.health = .healthy → ∀ r, tableGet st.items id = some r →
      update_event st id u = .error ⟨400, "No fields to update"⟩) := by
  refine ⟨?_, ?_, ?_⟩
  · intro hh
    unfold update_event
    rw [hh]
    simp [hid]
  · intro hh hnone
    unfold update_event
    rw [hh]
    simp [hid, hnone]
  · intro hh r hr
    unfold update_event
    rw [hh]
    simp [hid, hr, hnf]

/-- Witness for C3 at `baseStore` (in which the existing-record branch is
the live one: the empty update on `"e1"` yields `400`). -/
theorem C3_witness :
    eventIdInvalid "e1" = false ∧ emptyUpdate.hasFields = false ∧
    ((baseStore.health = .tableMissing →
      update_event baseStore "e1" emptyUpdate = .error ⟨503, tableMissingDetail⟩) ∧
    (baseStore.health = .healthy → tableGet baseStore.items "e1" = none →
      update_event baseStore "e1" emptyUpdate = .error ⟨404, notFoundDetail "e1"⟩) ∧
    (baseStore.health = .healthy → ∀ r, tableGet baseStore.items "e1" = some r →
      update_event baseStore "e1" emptyUpdate = .error ⟨400, "No fields to update"⟩)) :=
  ⟨by decide, by decide,
    C3_empty_update_order baseStore "e1" emptyUpdate (by decide) (by decide)⟩

/-! ### C4 — filter composition in `list_events` -/

/-- The effective condition one filter imposes: none when the filter is
absent — or, because of Python truthiness, the empty string — and the
filter body otherwise. -/
def filterCond (f : Option String) (p : String → EventRecord → Bool)
    (e : EventRecord) : Bool :=
  match f with
  | some s => if s = "" then true else p s e
  | none => true

theorem filter_of_const_true (l : List EventRecord) (p : EventRecord → Bool)
    (h : ∀ e, p e = true) : l.filter p = l := by
  induction l with
  | nil => rfl
  | cons a t ih => simp [List.filter_cons, h a, ih]

theorem applyFilter_eq_filter (f : Option String) (p : String → EventRecord → Bool)
    (events : List EventRecord) :
    applyFilter f p events = events.filter (filterCond f p) := by
  cases f with
  | none => exact (filter_of_const_true events _ (fun e => rfl)).symm
  | some s =>
    by_cases hs : s = ""
    · subst hs
      simp only [applyFilter, if_pos rfl]
      exact (filter_of_const_true events _ (fun e => rfl)).symm
    · simp only [applyFilter, if_neg hs]
      exact List.filter_congr (fun a _ => by simp [filterCond, hs])

/-- The conjunction of the three effective filter conditions: status an
exact case-insensitive match, location and organizer case-insensitive
substring matches. -/
def matchesFilters (fs fl fo : Option String) (e : EventRecord) : Bool :=
  filterCond fs statusMatch e && filterCond fl locationMatch e &&
    filterCond fo organizerMatch e

/-- Counterexample to C4 as stated: the supplied (but empty) status
filter `some ""` is skipped by Python truthiness, so `list_events`
returns `baseRecord` even though its status `"draft"` is not equal to the
filter value `""` case-insensitively — the returned list is not exactly
the records matching the supplied status filter. -/
theorem C4_counterexample :
    list_events baseStore (some "") none none = .ok ([baseRecord], 1) ∧
    statusMatch "" baseRecord = false :=
  ⟨rfl, by decide⟩

/-- C4 (amended): for every table contents and every combination of
filters, `list_events` returns exactly the records satisfying the
conjunction of the effective conditions — where a filter that is absent
*or the empty string* imposes no condition — and the returned count is
the length of the returned list. -/
theorem C4_filter_composition (st : Store) (fs fl fo : Option String)
    (hh : st.health = .healthy) :
    list_events st fs fl fo =
      .ok (st.items.filter (matchesFilters fs fl fo),
           (st.items.filter (matchesFilters fs fl fo)).length) := by
  unfold list_events
  rw [hh]
  simp only [applyFilter_eq_filter, List.filter_filter]
  have hpred : (fun a => filterCond fo organizerMatch a &&
      (filterCond fl locationMatch a && filterCond fs statusMatch a)) =
      matchesFilters fs fl fo := by
    funext a
    unfold matchesFilters
    cases filterCond fs statusMatch a <;> cases filterCond fl locationMatch a <;>
      cases filterCond fo organizerMatch a <;> rfl
  rw [hpred]

/-- Witness for C4: on `baseStore`, the filters status `"DRAFT"` and
location `"ny"` both match `baseRecord` case-insensitively. -/
theorem C4_witness :
    baseStore.items.filter (matchesFilters (some "DRAFT") (some "ny") none) =
      [baseRecord] ∧
    list_events baseStore (some "DRAFT") (some "ny") none =
      .ok (baseStore.items.filter (matchesFilters (some "DRAFT") (some "ny") none),
        (baseStore.items.filter (matchesFilters (some "DRAFT") (some "ny") none)).length) :=
  ⟨by decide, C4_filter_composition baseStore (some "DRAFT") (some "ny") none rfl⟩

/-! ### C5 — create with a duplicate id silently overwrites -/

/-- C5: for every valid payload carrying an explicit non-empty `eventId`
that already identifies a record in the store, `create_event` succeeds
without any existence check (the pre-existing record hypothesis is never
consulted) and afterwards the store holds exactly the new full record
under that id. -/
theorem C5_create_overwrites (st : Store) (freshId s : String) (e : Event)
    (old : EventRecord) (hv : e.Valid) (he : e.eventId = some s)
    (hs : s ≠ "") (hh : st.health = .healthy)
    (hold : tableGet st.items s = some old) :
    ∃ st', create_event st freshId e = .ok (mkItem freshId e, st') ∧
      (mkItem freshId e).eventId = s ∧
      st'.items.filter (fun r => r.eventId = s) = [mkItem freshId e] := by
  have hid : (mkItem freshId e).eventId = s := by simp [mkItem, resolvedId, he, hs]
  refine ⟨{ st with items := tablePut st.items (mkItem freshId e) }, ?_, hid, ?_⟩
  · unfold create_event
    rw [hh]
  · have h2 := tablePut_filter_self st.items (mkItem freshId e)
    simp only [hid] at h2
    exact h2

/-- A valid payload reusing the stored id `"e1"` with a new title. -/
def dupEvent : Event := { baseEvent with eventId := some "e1", title := "Meetup 2" }

/-- Witness for C5: creating `dupEvent` over `baseStore` replaces
`baseRecord`. -/
theorem C5_witness :
    dupEvent.Valid ∧ dupEvent.eventId = some "e1" ∧
    tableGet baseStore.items "e1" = some baseRecord ∧
    (∃ st', create_event baseStore "u1" dupEvent = .ok (mkItem "u1" dupEvent, st') ∧
      (mkItem "u1" dupEvent).eventId = "e1" ∧
      st'.items.filter (fun r => r.eventId = "e1") = [mkItem "u1" dupEvent]) :=
  ⟨by decide, rfl, by decide,
    C5_create_overwrites baseStore "u1" "e1" dupEvent baseRecord (by decide) rfl
      (by decide) rfl (by decide)⟩

/-! ### C6 — delete contract and delete-then-get -/

/-- Counterexample to C6 as stated: `" "` is a non-empty id and no record
with it exists in `emptyStore`, yet `delete_event` answers
`400 InvalidInput` rather than `NotFound`, and the subsequent `get_event`
answers `400` rather than `NotFound`. -/
theorem C6_counterexample :
    (" " : String) ≠ "" ∧
    tableGet emptyStore.items " " = none ∧
    delete_event emptyStore " " = .error ⟨400, "Event ID is required"⟩ ∧
    get_event emptyStore " " = .error ⟨400, "Event ID is required"⟩ :=
  ⟨by decide, rfl, rfl, rfl⟩

/-- C6 (amended): for every id that is not empty or whitespace-only,
`delete_event` returns `404 NotFound` when no record with that id exists
and otherwise removes the record and returns the confirmation payload
with the deleted id; in either case a subsequent `get_event` on the same
id yields `404 NotFound`. -/
theorem C6_delete_contract (st : Store) (id : String)
    (hh : st.health = .healthy) (hid : eventIdInvalid id = false) :
    (tableGet st.items id = none →
      delete_event st id = .error ⟨404, notFoundDetail id⟩ ∧
      get_event st id = .error ⟨404, notFoundDetail id⟩) ∧
    (∀ r, tableGet st.items id = some r →
      ∃ st', delete_event st id = .ok (⟨"Event deleted successfully", id⟩, st') ∧
        get_event st' id = .error ⟨404, notFoundDetail id⟩) := by
  constructor
  · intro hnone
    constructor
    · simp [delete_event, hid, hh, hnone]
    · simp [get_event, hid, hh, hnone]
  · intro r hr
    refine ⟨{ st with items := tableDelete st.items id }, ?_, ?_⟩
    · simp [delete_event, hid, hh, hr]
    · simp [get_event, hid, hh, tableGet_tableDelete]

/-- Witness for C6 at `baseStore` and the id `"e1"` (whose record
exists, so the second branch is the live one). -/
theorem C6_witness :
    eventIdInvalid "e1" = false ∧
    ((tableGet baseStore.items "e1" = none →
      delete_event baseStore "e1" = .error ⟨404, notFoundDetail "e1"⟩ ∧
      get_event baseStore "e1" = .error ⟨404, notFoundDetail "e1"⟩) ∧
    (∀ r, tableGet baseStore.items "e1" = some r →
      ∃ st', delete_event baseStore "e1" =
          .ok (⟨"Event deleted successfully", "e1"⟩, st') ∧
        get_event st' "e1" = .error ⟨404, notFoundDetail "e1"⟩)) :=
  ⟨by decide, C6_delete_contract baseStore "e1" rfl (by decide)⟩

/-! ### C7 — empty or whitespace-only id rejected by the point operations -/

/-- C7: whenever every character of the id is whitespace (which covers
the empty id vacuously), `get_event`, `update_event` and `delete_event`
all answer `400 InvalidInput` — for every store state whatsoever, i.e.
regardless of contents or availability, since the check precedes the
store access. -/
theorem C7_invalid_id_rejected (st : Store) (id : String) (u : EventUpdate)
    (hws : ∀ c ∈ id.toList, pyIsSpace c = true) :
    get_event st id = .error ⟨400, "Event ID is required"⟩ ∧
    update_event st id u = .error ⟨400, "Event ID is required"⟩ ∧
    delete_event st id = .error ⟨400, "Event ID is required"⟩ := by
  have hid : eventIdInvalid id = true := by
    unfold eventIdInvalid
    simp only [Bool.or_eq_true, decide_eq_true_eq, List.all_eq_true]
    exact Or.inr hws
  refine ⟨?_, ?_, ?_⟩ <;> simp [get_event, update_event, delete_event, hid]

/-- Witness for C7: the two-space id against a store whose table is
missing still yields `400`, not `503`. -/
theorem C7_witness :
    (∀ c ∈ ("  " : String).toList, pyIsSpace c = true) ∧
    (get_event { health := .tableMissing, items := [] } "  " =
        .error ⟨400, "Event ID is required"⟩ ∧
      update_event { health := .tableMissing, items := [] } "  " titleUpdate =
        .error ⟨400, "Event ID is required"⟩ ∧
      delete_event { health := .tableMissing, items := [] } "  " =
        .error ⟨400, "Event ID is required"⟩) :=
  ⟨by decide, C7_invalid_id_rejected { health := .tableMissing, items := [] } "  "
    titleUpdate (by decide)⟩

/-! ### C8 — store error taxonomy -/

/-- The HTTP status of a handler outcome, when it is an error. -/
def errStatus {α : Type} : Except HTTPError α → Option Nat
  | .ok _ => none
  | .error h => some h.status

/-- The taxonomy C8 states, at one choice of inputs: a missing table
yields `503` from every one of the five operations, any other store
failure yields `500`, and on a healthy store every error any operation
produces is a `400` or a `404` (so `NotFound`/`InvalidInput` are never
remapped to `500`/`503`). -/
def TaxonomyOk (items : List EventRecord) (msg freshId : String) (e : Event)
    (fs fl fo : Option String) (id : String) (u : EventUpdate) : Prop :=
  (errStatus (create_event ⟨.tableMissing, items⟩ freshId e) = some 503 ∧
   errStatus (list_events ⟨.tableMissing, items⟩ fs fl fo) = some 503 ∧
   errStatus (get_event ⟨.tableMissing, items⟩ id) = some 503 ∧
   errStatus (update_event ⟨.tableMissing, items⟩ id u) = some 503 ∧
   errStatus (delete_event ⟨.tableMissing, items⟩ id) = some 503) ∧
  (errStatus (create_event ⟨.otherFailure msg, items⟩ freshId e) = some 500 ∧
   errStatus (list_events ⟨.otherFailure msg, items⟩ fs fl fo) = some 500 ∧
   errStatus (get_event ⟨.otherFailure msg, items⟩ id) = some 500 ∧
   errStatus (update_event ⟨.otherFailure msg, items⟩ id u) = some 500 ∧
   errStatus (delete_event ⟨.otherFailure msg, items⟩ id) = some 500) ∧
  (∀ h, create_event ⟨.healthy, items⟩ freshId e = .error h →
    h.status = 400 ∨ h.status = 404) ∧
  (∀ h, list_events ⟨.healthy, items⟩ fs fl fo = .error h →
    h.status = 400 ∨ h.status = 404) ∧
  (∀ h, get_event ⟨.healthy, items⟩ id = .error h →
    h.status = 400 ∨ h.status = 404) ∧
  (∀ h, update_event ⟨.healthy, items⟩ id u = .error h →
    h.status = 400 ∨ h.status = 404) ∧
  (∀ h, delete_event ⟨.healthy, items⟩ id = .error h →
    h.status = 400 ∨ h.status = 404)

/-- C8: the store error taxonomy holds for all five operations and all
inputs that pass the boundary id validation (per C7, an empty or
whitespace-only id is answered `400` before any store access, so the id
hypothesis reflects that precedence). -/
theorem C8_error_taxonomy (items : List EventRecord) (msg freshId : String)
    (e : Event) (fs fl fo : Option String) (id : String) (u : EventUpdate)
    (hid : eventIdInvalid id = false) :
    TaxonomyOk items msg freshId e fs fl fo id u := by
  unfold TaxonomyOk
  refine ⟨⟨?_, ?_, ?_, ?_, ?_⟩, ⟨?_, ?_, ?_, ?_, ?_⟩, ?_, ?_, ?_, ?_, ?_⟩
  · rfl
  · rfl
  · simp [get_event, hid, errStatus]
  · simp [update_event, hid, errStatus]
  · simp [delete_event, hid, errStatus]
  · rfl
  · rfl
  · simp [get_event, hid, errStatus]
  · simp [update_event, hid, errStatus]
  · simp [delete_event, hid, errStatus]
  · intro h heq
    simp [create_event] at heq
  · intro h heq
    simp [list_events] at heq
  · intro h heq
    simp only [get_event, hid, Bool.false_eq_true, if_false] at heq
    cases htg : tableGet items id with
    | none =>
      rw [htg] at heq
      injection heq with h2
      rw [← h2]
      exact Or.inr rfl
    | some r =>
      rw [htg] at heq
      simp at heq
  · intro h heq
    simp only [update_event, hid, Bool.false_eq_true, if_false] at heq
    cases htg : tableGet items id with
    | none =>
      rw [htg] at heq
      injection heq with h2
      rw [← h2]
      exact Or.inr rfl
    | some r =>
      rw [htg] at heq
      dsimp only at heq
      by_cases hf : u.hasFields
      · rw [if_pos hf] at heq
        simp at heq
      · rw [if_neg hf] at heq
        injection heq with h2
        rw [← h2]
        exact Or.inl rfl
  · intro h heq
    simp only [delete_event, hid, Bool.false_eq_true, if_false] at heq
    cases htg : tableGet items id with
    | none =>
      rw [htg] at heq
      injection heq with h2
      rw [← h2]
      exact Or.inr rfl
    | some r =>
      rw [htg] at heq
      simp at heq

/-- Witness for C8 at concrete inputs. -/
theorem C8_witness :
    eventIdInvalid "e1" = false ∧
    TaxonomyOk [baseRecord] "boom" "u1" baseEvent none none none "e1" titleUpdate :=
  ⟨by decide,
    C8_error_taxonomy [baseRecord] "boom" "u1" baseEvent none none none "e1"
      titleUpdate (by decide)⟩

/-! ### C9 — empty-string eventId treated like an absent one -/

/-- C9: a payload supplying `eventId = ""` is handled by `create_event`
exactly like one supplying no id at all (Python truthiness): the fresh
UUID becomes the stored id, the call succeeds, and the record is stored
under the fresh id. -/
theorem C9_empty_id_like_absent (st : Store) (freshId : String) (e : Event)
    (hv : e.Valid) (he : e.eventId = some "") (hh : st.health = .healthy) :
    create_event st freshId e = create_event st freshId { e with eventId := none } ∧
    ∃ r st', create_event st freshId e = .ok (r, st') ∧ r.eventId = freshId ∧
      tableGet st'.items freshId = some r := by
  have hres : (mkItem freshId e).eventId = freshId := by
    simp [mkItem, resolvedId, he]
  constructor
  · have hmk : mkItem freshId e = mkItem freshId { e with eventId := none } := by
      simp [mkItem, resolvedId, he]
    unfold create_event
    rw [hmk]
  · refine ⟨mkItem freshId e,
      { st with items := tablePut st.items (mkItem freshId e) }, ?_, hres, ?_⟩
    · unfold create_event
      rw [hh]
    · have h2 := tableGet_tablePut st.items (mkItem freshId e)
      rw [hres] at h2
      exact h2

/-- The §8 scenario payload with an explicitly empty id. -/
def emptyIdEvent : Event := { baseEvent with eventId := some "" }

/-- Witness for C9. -/
theorem C9_witness :
    emptyIdEvent.Valid ∧ emptyIdEvent.eventId = some "" ∧
    (create_event emptyStore "id-1" emptyIdEvent =
        create_event emptyStore "id-1" { emptyIdEvent with eventId := none } ∧
      ∃ r st', create_event emptyStore "id-1" emptyIdEvent = .ok (r, st') ∧
        r.eventId = "id-1" ∧ tableGet st'.items "id-1" = some r) :=
  ⟨by decide, rfl,
    C9_empty_id_like_absent emptyStore "id-1" emptyIdEvent (by decide) rfl rfl⟩

/-! ### C10 — whitespace-only ids are storable but unreachable -/

/-- C10: `create_event` accepts a whitespace-only (non-empty) id and
stores the record under it, but `get_event`, `update_event` and
`delete_event` on that id all answer `400 InvalidInput`, so the stored
record is unreachable through the single-record operations. -/
theorem C10_whitespace_id_unreachable (st : Store) (freshId s : String)
    (e : Event) (u : EventUpdate) (hv : e.Valid) (he : e.eventId = some s)
    (hs : s ≠ "") (hws : ∀ c ∈ s.toList, pyIsSpace c = true)
    (hh : st.health = .healthy) :
    ∃ r st', create_event st freshId e = .ok (r, st') ∧ r.eventId = s ∧
      tableGet st'.items s = some r ∧
      get_event st' s = .error ⟨400, "Event ID is required"⟩ ∧
      update_event st' s u = .error ⟨400, "Event ID is required"⟩ ∧
      delete_event st' s = .error ⟨400, "Event ID is required"⟩ := by
  have hres : (mkItem freshId e).eventId = s := by
    simp [mkItem, resolvedId, he, hs]
  have hinv : eventIdInvalid s = true := by
    unfold eventIdInvalid
    simp only [Bool.or_eq_true, decide_eq_true_eq, List.all_eq_true]
    exact Or.inr hws
  refine ⟨mkItem freshId e,
    { st with items := tablePut st.items (mkItem freshId e) }, ?_, hres, ?_, ?_, ?_, ?_⟩
  · unfold create_event
    rw [hh]
  · have h2 := tableGet_tablePut st.items (mkItem freshId e)
    rw [hres] at h2
    exact h2
  · simp [get_event, hinv]
  · simp [update_event, hinv]
  · simp [delete_event, hinv]

/-- Witness for C10 at `wsEvent` (id `" "`). -/
theorem C10_witness :
    wsEvent.Valid ∧ wsEvent.eventId = some " " ∧ (" " : String) ≠ "" ∧
    (∀ c ∈ (" " : String).toList, pyIsSpace c = true) ∧
    (∃ r st', create_event emptyStore "id-1" wsEvent = .ok (r, st') ∧
      r.eventId = " " ∧ tableGet st'.items " " = some r ∧
      get_event st' " " = .error ⟨400, "Event ID is required"⟩ ∧
      update_event st' " " titleUpdate = .error ⟨400, "Event ID is required"⟩ ∧
      delete_event st' " " = .error ⟨400, "Event ID is required"⟩) :=
  ⟨by decide, rfl, by decide, by decide,
    C10_whitespace_id_unreachable emptyStore "id-1" " " wsEvent titleUpdate
      (by decide) rfl (by decide) (by decide) rfl⟩

end EventsApi
